import Mathlib

/-!
Shallow embedding of the two source components of this repository:

* the session-auth client (class GoogleCloudAuth, file src/unnamed/part_000),
  which wraps fetches to the Google tile endpoints, holds an API token,
  a nullable session token and a single in-flight token-refresh promise; and
* the caching tile proxy (src/node-google-tiles/server.js), an HTTP server
  that normalizes upstream URLs into cache keys, serves cache hits from disk
  and streams cache misses to the client while writing a temporary file that
  is renamed into place on upstream end.

Strings coming over the wire are modelled as lists of characters (LC) so that
all definitions evaluate inside the kernel.  URLs are modelled as parsed
structures (scheme, host, pathname, ordered query parameters) with an explicit
serialization, mirroring how the source only ever manipulates URLs through the
WHATWG URL / URLSearchParams interface.  Promise-based control flow is
modelled by explicit state passing: the synchronous prefix of each async
function is one atomic step (the JavaScript event loop never preempts it) and
each await point consumes the settlement outcome of the awaited promise from
an explicit oracle.
-/

namespace GoogleTiles

abbrev LC := List Char

/-- Model of the JavaScript single-character string split, as used by
tile.content.uri.split in getSessionToken: it returns the (possibly empty)
pieces between occurrences of the separator, so the empty string yields one
empty piece, matching JS. -/
def splitOnChar (c : Char) : LC → List LC
  | [] => [[]]
  | x :: xs =>
    let r := splitOnChar c xs
    if x = c then [] :: r
    else
      match r with
      | [] => [[x]]
      | h :: t => (x :: h) :: t

/-- Model of how URLSearchParams parses one piece of a query string: the key
is everything before the first equals sign, the value everything after it
(further equals signs belong to the value). -/
def splitKV (piece : LC) : LC × LC :=
  match splitOnChar '=' piece with
  | [] => ([], [])
  | k :: rest => (k, List.intercalate ['='] rest)

/-- Model of URLSearchParams applied to a raw query string (without the
leading question mark): an ordered list of key/value pairs. -/
def parseParams (q : LC) : List (LC × LC) :=
  (splitOnChar '&' q).map splitKV

/-- First-match association lookup, modelling URLSearchParams.get (returns
null, i.e. none, when the key is absent). -/
def assocLookup : List (LC × LC) → LC → Option LC
  | [], _ => none
  | (k', v) :: rest, k => if k' = k then some v else assocLookup rest k

/-- Model of the session-parameter extraction performed on a content URI in
getSessionToken: split the URI on the question mark, take the second piece as
the query string (undefined, i.e. none, when there is no question mark) and
look up the session parameter in it. -/
def uriSessionParam (uri : String) : Option String :=
  match (splitOnChar '?' uri.toList).get? 1 with
  | none => none
  | some q => (assocLookup (parseParams q) (String.toList ("session"))).map fun l => String.mk l

/-- Tileset manifest node: an optional content URI (tile.content && tile.content.uri
collapsed into one optional field) and the child nodes. -/
inductive Tile where
  | mk (contentUri : Option String) (children : List Tile)

def Tile.contentUri : Tile → Option String
  | .mk u _ => u

def Tile.children : Tile → List Tile
  | .mk _ c => c

mutual

/-- Modelled from the spec: TraversalUtils.traverseSet (imported from
3d-tiles-renderer/core, not under src/) specialised to the callback of
getSessionToken.  Per the spec the manifest walk is a short-circuiting
depth-first traversal that stops the whole walk at the first node on which
the callback returns true; the callback in the source returns true exactly
on a node carrying a content URI.  This function returns that first node. -/
def firstContentTile : Tile → Option Tile
  | .mk u cs => if u.isSome then some (Tile.mk u cs) else firstContentTileInList cs

/-- Helper of firstContentTile: first content-bearing node over a forest,
in order. -/
def firstContentTileInList : List Tile → Option Tile
  | [] => none
  | c :: cs =>
    match firstContentTile c with
    | some r => some r
    | none => firstContentTileInList cs

end

mutual

/-- Preorder listing of a manifest tree, used to state traversal results
without the short-circuiting recursion. -/
def preorder : Tile → List Tile
  | .mk u cs => Tile.mk u cs :: preorderList cs

/-- Preorder listing of a forest. -/
def preorderList : List Tile → List Tile
  | [] => []
  | c :: cs => preorder c ++ preorderList cs

end

/-- Auth-endpoint / data response body as the source inspects it: presence of
a session field (json.session, with its string value) and the manifest root
(json.root).  A 2D session response carries a session field; a 3D manifest
carries a root tree. -/
structure Json where
  session : Option String
  root : Tile

/-- Translation of getSessionToken (src/unnamed/part_000 lines 163-193): if
the response has a session field its value is returned; otherwise the
manifest is walked and the walk stops at the first node with a content URI,
whose session query parameter (possibly absent) is the result. -/
def getSessionToken (j : Json) : Option String :=
  match j.session with
  | some s => some s
  | none =>
    match firstContentTile j.root with
    | some t =>
      match Tile.contentUri t with
      | some uri => uriSessionParam uri
      | none => none
    | none => none

/-- Predicate of the claim's stopping rule: the node's content URI exists and
carries a session query parameter. -/
def tileHasSessionUri (t : Tile) : Bool :=
  match Tile.contentUri t with
  | some uri => (uriSessionParam uri).isSome
  | none => false

/-- Claim-side reading of the extraction rule, following the claim's words:
the walk stops at the first node whose content reference is a URL containing
a session query parameter, yielding that parameter's value. -/
def getSessionTokenClaim (j : Json) : Option String :=
  match j.session with
  | some s => some s
  | none =>
    match (preorder j.root).find? tileHasSessionUri with
    | some t =>
      match Tile.contentUri t with
      | some uri => uriSessionParam uri
      | none => none
    | none => none

/-- Amended reading of the extraction rule: the walk stops at the first node
that has a content URI at all (whether or not that URI carries a session
parameter), and the result is that URI's session parameter, possibly absent. -/
def getSessionTokenAmended (j : Json) : Option String :=
  match j.session with
  | some s => some s
  | none =>
    match (preorder j.root).find? (fun t => (Tile.contentUri t).isSome) with
    | some t =>
      match Tile.contentUri t with
      | some uri => uriSessionParam uri
      | none => none
    | none => none

mutual

/-- Short-circuiting walk equals the first preorder node with a content URI. -/
theorem firstContentTile_eq_find : ∀ t : Tile,
    firstContentTile t = (preorder t).find? fun u => (Tile.contentUri u).isSome
  | .mk u cs => by
    cases u with
    | some s => simp [firstContentTile, preorder, List.find?, Tile.contentUri]
    | none =>
      simpa [firstContentTile, preorder, List.find?, Tile.contentUri] using
        firstContentTileInList_eq_find cs

/-- Forest version of firstContentTile_eq_find. -/
theorem firstContentTileInList_eq_find : ∀ l : List Tile,
    firstContentTileInList l = (preorderList l).find? fun u => (Tile.contentUri u).isSome
  | [] => by simp [firstContentTileInList, preorderList]
  | c :: cs => by
    rw [firstContentTileInList, preorderList, List.find?_append,
      ← firstContentTile_eq_find c, ← firstContentTileInList_eq_find cs]
    cases firstContentTile c <;> simp [Option.or]

end

/-- C4 (counterexample): the claim's stopping rule ("the walk stops at the
first node whose content reference is a URL containing a session query
parameter") disagrees with the code on a manifest whose first content-bearing
node has a URI without a session parameter: the code stops there and yields
no token, while the claim's rule would continue to the second node and yield
xyz. -/
theorem getSessionToken_claim_counterexample :
    getSessionToken
        { session := none,
          root := Tile.mk none
            [Tile.mk (some ("a.glb")) [], Tile.mk (some ("b.glb?session=xyz")) []] } = none ∧
    getSessionTokenClaim
        { session := none,
          root := Tile.mk none
            [Tile.mk (some ("a.glb")) [], Tile.mk (some ("b.glb?session=xyz")) []] }
      = some ("xyz") := by
  constructor <;> decide

/-- C4 (amended): a response with a session field yields that field's value;
otherwise the walk stops at the first preorder node that has a content URI at
all, and the token is that URI's session query parameter (possibly absent, in
which case there is no token and no error).  The stated examples hold: a
session field abc yields abc, a first content URI mesh.glb?session=xyz&other=1
yields xyz, and a manifest with no content URIs yields no token. -/
theorem getSessionToken_stops_at_first_content_node :
    (∀ j : Json, getSessionToken j = getSessionTokenAmended j) ∧
    getSessionToken { session := some ("abc"), root := Tile.mk none [] } = some ("abc") ∧
    getSessionToken
        { session := none,
          root := Tile.mk none [Tile.mk (some ("mesh.glb?session=xyz&other=1")) []] }
      = some ("xyz") ∧
    getSessionToken
        { session := none, root := Tile.mk none [Tile.mk none [], Tile.mk none []] } = none := by
  refine ⟨fun j => ?_, by decide, by decide, by decide⟩
  unfold getSessionToken getSessionTokenAmended
  rw [firstContentTile_eq_find]

/-! URL model shared by the auth client and the proxy.  The source only ever
manipulates URLs through the WHATWG URL / URLSearchParams interface, so a URL
is embedded as its parsed components with an explicit serialization of the
hierarchical shape scheme://host/path?k=v&k=v used by every URL here. -/

/-- Parsed URL: scheme, host, pathname and the ordered query parameters. -/
structure SUrl where
  scheme : LC
  host : LC
  pathname : LC
  params : List (LC × LC)
deriving DecidableEq

/-- Model of URLSearchParams.delete: removes every pair with the given name,
keeping the order of the remaining pairs. -/
def removeParam (ps : List (LC × LC)) (k : LC) : List (LC × LC) :=
  ps.filter fun p => ¬(p.1 = k)

/-- Model of URLSearchParams.set: overwrite the first pair carrying the name
(dropping later occurrences), or append the pair at the end when the name is
absent. -/
def setParam : List (LC × LC) → LC → LC → List (LC × LC)
  | [], k, v => [(k, v)]
  | (k', v') :: rest, k, v =>
    if k' = k then (k, v) :: removeParam rest k
    else (k', v') :: setParam rest k v

/-- Serialized query string: empty when there are no parameters, otherwise a
question mark followed by the ampersand-separated key=value pairs. -/
def serializeParams (ps : List (LC × LC)) : LC :=
  match ps with
  | [] => []
  | _ => '?' :: List.intercalate ['&'] (ps.map fun p => p.1 ++ '=' :: p.2)

/-- URL serialization (URL.toString). -/
def serializeUrl (u : SUrl) : LC :=
  u.scheme ++ ':' :: '/' :: '/' :: (u.host ++ u.pathname ++ serializeParams u.params)

/-- URL-level URLSearchParams.set. -/
def urlSetParam (u : SUrl) (k v : LC) : SUrl :=
  { u with params := setParam u.params k v }

/-- Cache-key normalization of the request handler (server.js lines 82-98):
copy the target URL and delete its key and session query parameters, in that
order. -/
def normalizeKeyUrl (u : SUrl) : SUrl :=
  { u with params := removeParam (removeParam u.params (("key").toList)) (("session").toList) }

/-- Cache directory prefix (server.js CACHE_DIR, joined with the digest by
urlToCachePath). -/
def CACHE_DIR : LC := ("tile-cache/").toList

/-- Translation of urlToCachePath (server.js lines 33-36): the cache file
path is the cache directory joined with the hex digest of the key string.
The sha1 digest is a parameter; every statement below holds for an arbitrary
digest function, in particular for sha1. -/
def urlToCachePath (digest : LC → LC) (urlString : LC) : LC :=
  CACHE_DIR ++ digest urlString

/-- Key string hashed for a binary .glb asset (server.js lines 80-88). -/
def glbCacheKey (u : SUrl) : LC := serializeUrl (normalizeKeyUrl u)

/-- Key string hashed for a .json manifest (server.js lines 90-98): the same
normalized URL carrying the distinguishing json: prefix. -/
def jsonCacheKey (u : SUrl) : LC := ("json:").toList ++ serializeUrl (normalizeKeyUrl u)

/-- Cacheability classification and cache-path computation of the request
handler (server.js lines 79-100): .glb and .json path suffixes are cacheable,
everything else bypasses the cache. -/
def cachePathForTarget (digest : LC → LC) (u : SUrl) : Option LC :=
  if List.isSuffixOf ((".glb").toList) u.pathname then
    some (urlToCachePath digest (glbCacheKey u))
  else if List.isSuffixOf ((".json").toList) u.pathname then
    some (urlToCachePath digest (jsonCacheKey u))
  else none

/-- Query parameters with the volatile credential parameters (key and
session) removed. -/
def stripCredParams (ps : List (LC × LC)) : List (LC × LC) :=
  ps.filter fun p => ¬(p.1 = ("key").toList) ∧ ¬(p.1 = ("session").toList)

/-- Two upstream URLs differ only in the values or presence of their key and
session query parameters: every other component, and the ordered sequence of
non-credential parameters, agree. -/
def sameUpToCredentials (u1 u2 : SUrl) : Prop :=
  u1.scheme = u2.scheme ∧ u1.host = u2.host ∧ u1.pathname = u2.pathname ∧
    stripCredParams u1.params = stripCredParams u2.params

/-- Deleting key then session equals one filter keeping non-credential
parameters. -/
theorem removeParam_key_session_eq_strip (ps : List (LC × LC)) :
    removeParam (removeParam ps (("key").toList)) (("session").toList) =
      stripCredParams ps := by
  simp only [removeParam, stripCredParams, List.filter_filter]
  congr 1
  funext a
  by_cases hk : a.1 = ("key").toList <;> by_cases hs : a.1 = ("session").toList <;>
    simp [hk, hs, Bool.and_comm]

/-- Normalization depends only on the non-credential part of the URL. -/
theorem normalizeKeyUrl_eq_of_sameUpToCredentials (u1 u2 : SUrl)
    (h : sameUpToCredentials u1 u2) : normalizeKeyUrl u1 = normalizeKeyUrl u2 := by
  obtain ⟨hs, hh, hp, hq⟩ := h
  unfold normalizeKeyUrl
  rw [removeParam_key_session_eq_strip, removeParam_key_session_eq_strip, hs, hh, hp, hq]

/-- C6: for every pair of cacheable upstream URLs that differ only in the
values or presence of their key and session query parameters, the normalized
key strings of both cache branches are identical, and the computed cache file
path is identical, for any digest function (in particular sha1). -/
theorem cache_key_ignores_credentials (digest : LC → LC) (u1 u2 : SUrl)
    (hcacheable : List.isSuffixOf ((".glb").toList) u1.pathname = true ∨
      List.isSuffixOf ((".json").toList) u1.pathname = true)
    (h : sameUpToCredentials u1 u2) :
    glbCacheKey u1 = glbCacheKey u2 ∧ jsonCacheKey u1 = jsonCacheKey u2 ∧
      cachePathForTarget digest u1 = cachePathForTarget digest u2 := by
  have hn := normalizeKeyUrl_eq_of_sameUpToCredentials u1 u2 h
  have hpath : u1.pathname = u2.pathname := h.2.2.1
  refine ⟨?_, ?_, ?_⟩
  · unfold glbCacheKey; rw [hn]
  · unfold jsonCacheKey; rw [hn]
  · unfold cachePathForTarget glbCacheKey jsonCacheKey
    rw [hn, hpath]

/-- C6 witness: two concrete URLs differing in the value of key and the
presence of session map to the same cache path (digest instantiated with the
identity function). -/
theorem cache_key_ignores_credentials_witness :
    cachePathForTarget (fun l => l)
        { scheme := ("https").toList, host := ("tile.example").toList,
          pathname := ("/a/b.glb").toList,
          params := [(("key").toList, ("K1").toList), (("p").toList, ("1").toList),
            (("session").toList, ("S1").toList)] } =
      cachePathForTarget (fun l => l)
        { scheme := ("https").toList, host := ("tile.example").toList,
          pathname := ("/a/b.glb").toList,
          params := [(("p").toList, ("1").toList), (("key").toList, ("K2").toList)] } :=
  (cache_key_ignores_credentials (fun l => l) _ _ (Or.inl (by decide))
    (by refine ⟨rfl, rfl, rfl, ?_⟩; decide)).2.2

/-- Splitting a list at the first colon is unambiguous: when two colon-free
prefixes are each followed by a colon, the prefixes and the tails agree. -/
theorem append_colon_inj : ∀ (a1 a2 b1 b2 : LC), ':' ∉ a1 → ':' ∉ a2 →
    a1 ++ ':' :: b1 = a2 ++ ':' :: b2 → a1 = a2 ∧ b1 = b2
  | [], [], b1, b2, _, _, he => by simpa using he
  | [], x :: xs, b1, b2, _, h2, he => by
    rw [List.nil_append, List.cons_append] at he
    injection he with hx _
    have hm : ':' ∈ x :: xs := by rw [hx]; exact List.mem_cons_self x xs
    exact absurd hm h2
  | x :: xs, [], b1, b2, h1, _, he => by
    rw [List.nil_append, List.cons_append] at he
    injection he with hx _
    have hm : ':' ∈ x :: xs := by rw [← hx]; exact List.mem_cons_self x xs
    exact absurd hm h1
  | x :: xs, y :: ys, b1, b2, h1, h2, he => by
    rw [List.cons_append, List.cons_append] at he
    injection he with hxy htail
    subst hxy
    have hrec := append_colon_inj xs ys b1 b2
      (fun hm => h1 (List.mem_cons_of_mem _ hm))
      (fun hm => h2 (List.mem_cons_of_mem _ hm)) htail
    exact ⟨by rw [hrec.1], hrec.2⟩

/-- Scheme sanity: a URL scheme is nonempty and contains neither a colon nor
a slash (true of http and https and of every scheme the URL parser accepts
for a hierarchical URL). -/
def wfScheme (u : SUrl) : Prop :=
  u.scheme ≠ [] ∧ ':' ∉ u.scheme ∧ '/' ∉ u.scheme

/-- C7: the string hashed for a manifest (the normalized URL carrying the
json: prefix) is never equal to the string hashed for a binary asset, even
when the normalized URL strings themselves coincide, so the two cache-key
families never collide at the pre-digest level. -/
theorem json_key_never_equals_glb_key (m g : SUrl)
    (hm : wfScheme m) (hg : wfScheme g)
    (hmj : List.isSuffixOf ((".json").toList) m.pathname = true)
    (hgb : List.isSuffixOf ((".glb").toList) g.pathname = true) :
    jsonCacheKey m ≠ glbCacheKey g := by
  intro he
  unfold jsonCacheKey glbCacheKey serializeUrl at he
  have he' : ("json").toList ++ ':' ::
        (m.scheme ++ ':' :: '/' :: '/' ::
          ((normalizeKeyUrl m).host ++ (normalizeKeyUrl m).pathname ++
            serializeParams (normalizeKeyUrl m).params)) =
      g.scheme ++ ':' ::
        ('/' :: '/' ::
          ((normalizeKeyUrl g).host ++ (normalizeKeyUrl g).pathname ++
            serializeParams (normalizeKeyUrl g).params)) := he
  obtain ⟨hjson, htail⟩ := append_colon_inj _ _ _ _ (by decide) hg.2.1 he'
  obtain ⟨c, cs, hMs⟩ : ∃ c cs, m.scheme = c :: cs := by
    cases hms : m.scheme with
    | nil => exact absurd hms hm.1
    | cons c cs => exact ⟨c, cs, rfl⟩
  rw [hMs, List.cons_append] at htail
  injection htail with hc _
  exact hm.2.2 (by rw [hMs, hc]; exact List.mem_cons_self _ _)

/-- C7 witness: concrete manifest and binary URLs whose normalized URL
strings are equal; the two key strings still differ. -/
theorem json_key_never_equals_glb_key_witness :
    jsonCacheKey
        { scheme := ("https").toList, host := ("h").toList,
          pathname := ("/a.json").toList, params := [] } ≠
      glbCacheKey
        { scheme := ("https").toList, host := ("h").toList,
          pathname := ("/a.glb").toList, params := [] } :=
  json_key_never_equals_glb_key _ _
    (by refine ⟨?_, ?_, ?_⟩ <;> decide) (by refine ⟨?_, ?_, ?_⟩ <;> decide)
    (by decide) (by decide)

/-! Session-auth client (class GoogleCloudAuth, src/unnamed/part_000).  The
single-threaded event loop never preempts synchronous code, so the
synchronous prefix of an async method is one atomic step, and each await
point consumes the settlement outcome of the awaited promise from an oracle.
Promises are identified by allocation numbers so that distinct refresh
rounds stay distinguishable. -/

/-- Constant TILES_MAP_URL of the source. -/
def TILES_MAP_URL : String := ("https://tile.googleapis.com/v1/createSession")

/-- Mutable fields of a GoogleCloudAuth instance, as set up by the
constructor (lines 15-26). -/
structure AuthState where
  apiToken : String
  autoRefreshToken : Bool
  authURL : String
  sessionToken : Option String
  tokenRefreshPromise : Option Nat
  proxyURL : Option SUrl
  nextPromiseId : Nat
deriving DecidableEq

/-- Getter isMapTilesSession (lines 9-13). -/
def isMapTilesSession (s : AuthState) : Bool :=
  s.authURL = TILES_MAP_URL

/-- Result of the synchronous prefix of refreshToken: the updated instance
state, the promise the caller holds, and whether a network request to the
auth endpoint was issued by this call. -/
structure StartResult where
  state : AuthState
  handle : Nat
  issuedRequest : Bool
deriving DecidableEq

/-- Synchronous prefix of refreshToken (lines 103-158): when no refresh is
in flight, build the auth request, send it (issuedRequest records the
network call) and store the pending promise in _tokenRefreshPromise;
otherwise return the existing pending promise with no network activity. -/
def refreshTokenStart (s : AuthState) : StartResult :=
  match s.tokenRefreshPromise with
  | some p => ⟨s, p, false⟩
  | none =>
    ⟨{ s with
        tokenRefreshPromise := some s.nextPromiseId
        nextPromiseId := s.nextPromiseId + 1 }, s.nextPromiseId, true⟩

/-- Settlement of the refresh promise chain (lines 129-152): on success
(response ok, json parsed) the token is stored and the marker cleared in the
final then-handler; on failure (network rejection, or the error thrown for a
non-ok status) the chain has no rejection handler, so the instance state is
untouched and the promise rejects. -/
def refreshSettle (s : AuthState) (outcome : Except Unit Json) :
    AuthState × Except Unit Json :=
  match outcome with
  | .ok j =>
    ({ s with
        sessionToken := getSessionToken j
        tokenRefreshPromise := none }, .ok j)
  | .error e => (s, .error e)

/-- Synchronous prefix of fetch (lines 28-37) up to its first await: in
map-tiles mode with no session token, refreshToken is invoked without being
awaited, after which the caller awaits the current _tokenRefreshPromise. -/
def fetchStartPhase (s : AuthState) : AuthState × Bool :=
  if s.sessionToken = none ∧ isMapTilesSession s = true then
    ((refreshTokenStart s).state, (refreshTokenStart s).issuedRequest)
  else (s, false)

/-- N concurrent fetch callers: the event loop runs each caller's
synchronous prefix atomically, in some order; this folds those prefixes and
collects how many refresh network calls were issued and which promise each
caller then awaits. -/
def runFetchStarts : AuthState → Nat → AuthState × (Nat × List (Option Nat))
  | s, 0 => (s, 0, [])
  | s, n + 1 =>
    let r := fetchStartPhase s
    let rest := runFetchStarts r.1 n
    (rest.1, (if r.2 then 1 else 0) + rest.2.1, r.1.tokenRefreshPromise :: rest.2.2)

/-- While a refresh is pending, further fetch prefixes change nothing, issue
no network call, and all await the same pending promise. -/
theorem runFetchStarts_pending (n : Nat) : ∀ (s : AuthState) (p : Nat),
    s.tokenRefreshPromise = some p →
    runFetchStarts s n = (s, 0, List.replicate n (some p)) := by
  induction n with
  | zero => intro s p _; rfl
  | succ n ih =>
    intro s p h
    have hrt : refreshTokenStart s = ⟨s, p, false⟩ := by
      unfold refreshTokenStart; rw [h]
    have hfs : fetchStartPhase s = (s, false) := by
      unfold fetchStartPhase; rw [hrt]; split <;> rfl
    simp [runFetchStarts, hfs, ih s p h, h, List.replicate_succ]

/-- C1 (counterexample): starting a refresh from a fresh map-tiles client
and letting the auth round trip fail leaves the in-flight marker set, and a
subsequent call to refreshToken issues no new network request (it returns
the old failed promise), contradicting the claim that the marker is cleared
on the failure path so that a failed refresh is retried anew. -/
theorem refresh_marker_failure_counterexample :
    ((refreshSettle
        (refreshTokenStart
          { apiToken := ("k"), autoRefreshToken := false, authURL := TILES_MAP_URL,
            sessionToken := none, tokenRefreshPromise := none, proxyURL := none,
            nextPromiseId := 0 }).state (.error ())).1.tokenRefreshPromise ≠ none) ∧
    (refreshTokenStart
        (refreshSettle
          (refreshTokenStart
            { apiToken := ("k"), autoRefreshToken := false, authURL := TILES_MAP_URL,
              sessionToken := none, tokenRefreshPromise := none, proxyURL := none,
              nextPromiseId := 0 }).state (.error ())).1).issuedRequest = false := by
  constructor <;> decide

/-- C1 (amended): the in-flight refresh marker is cleared on the success
path before dependent callers proceed, but on the failure path (network
error or non-success auth response) it is left in place, so a subsequent
call to refreshToken returns the old failed refresh instead of starting a
new one. -/
theorem refresh_marker_cleared_only_on_success :
    (∀ (s : AuthState) (j : Json),
      (refreshSettle s (.ok j)).1.tokenRefreshPromise = none) ∧
    (∀ (s : AuthState) (e : Unit), (refreshSettle s (.error e)).1 = s) ∧
    (∀ (s : AuthState) (p : Nat), s.tokenRefreshPromise = some p →
      (refreshTokenStart s).issuedRequest = false ∧ (refreshTokenStart s).state = s) := by
  refine ⟨fun s j => rfl, fun s e => rfl, fun s p h => ?_⟩
  have hrt : refreshTokenStart s = ⟨s, p, false⟩ := by
    unfold refreshTokenStart; rw [h]
  rw [hrt]
  exact ⟨rfl, rfl⟩

/-- C1 amended witness: a concrete client with a pending refresh promise:
a further refreshToken call issues no network request and keeps the state. -/
theorem refresh_marker_cleared_only_on_success_witness :
    (refreshTokenStart
        { apiToken := ("k"), autoRefreshToken := false, authURL := TILES_MAP_URL,
          sessionToken := none, tokenRefreshPromise := some 5, proxyURL := none,
          nextPromiseId := 6 }).issuedRequest = false ∧
    (refreshTokenStart
        { apiToken := ("k"), autoRefreshToken := false, authURL := TILES_MAP_URL,
          sessionToken := none, tokenRefreshPromise := some 5, proxyURL := none,
          nextPromiseId := 6 }).state =
      { apiToken := ("k"), autoRefreshToken := false, authURL := TILES_MAP_URL,
        sessionToken := none, tokenRefreshPromise := some 5, proxyURL := none,
        nextPromiseId := 6 } :=
  refresh_marker_cleared_only_on_success.2.2 _ 5 rfl

/-- C2: a refreshToken call that observes a pending in-flight refresh
performs no network request and returns that same pending promise; and for N
concurrent fetch callers in map-tiles mode holding no session token, exactly
one refresh network call is issued among them and every caller awaits that
one promise. -/
theorem refresh_single_flight :
    (∀ (s : AuthState) (p : Nat), s.tokenRefreshPromise = some p →
      refreshTokenStart s = ⟨s, p, false⟩) ∧
    (∀ (s : AuthState) (n : Nat), s.tokenRefreshPromise = none →
      s.sessionToken = none → isMapTilesSession s = true → 1 ≤ n →
      (runFetchStarts s n).2.1 = 1 ∧
      (runFetchStarts s n).2.2 = List.replicate n (some s.nextPromiseId)) := by
  constructor
  · intro s p h; unfold refreshTokenStart; rw [h]
  · intro s n hm ht hmap hn
    obtain ⟨k, rfl⟩ : ∃ k, n = k + 1 := ⟨n - 1, by omega⟩
    have hrt : refreshTokenStart s =
        ⟨{ s with
            tokenRefreshPromise := some s.nextPromiseId
            nextPromiseId := s.nextPromiseId + 1 }, s.nextPromiseId, true⟩ := by
      unfold refreshTokenStart; rw [hm]
    have hpend := runFetchStarts_pending k
      { s with
        tokenRefreshPromise := some s.nextPromiseId
        nextPromiseId := s.nextPromiseId + 1 } s.nextPromiseId rfl
    rw [ht] at hpend
    simp [runFetchStarts, fetchStartPhase, hrt, ht, hmap, hpend, List.replicate_succ]

/-- C2 witness: three concurrent fetch callers on a fresh map-tiles client
issue exactly one refresh network call and all await promise number zero. -/
theorem refresh_single_flight_witness :
    (runFetchStarts
        { apiToken := ("k"), autoRefreshToken := false, authURL := TILES_MAP_URL,
          sessionToken := none, tokenRefreshPromise := none, proxyURL := none,
          nextPromiseId := 0 } 3).2.1 = 1 ∧
    (runFetchStarts
        { apiToken := ("k"), autoRefreshToken := false, authURL := TILES_MAP_URL,
          sessionToken := none, tokenRefreshPromise := none, proxyURL := none,
          nextPromiseId := 0 } 3).2.2 = List.replicate 3 (some 0) :=
  refresh_single_flight.2 _ 3 rfl rfl rfl (by omega)

/-- Data or auth response as fetch sees it: a status and a parsed JSON body. -/
structure Response where
  status : Nat
  body : Json

/-- What fetch hands back to its caller: the raw response object, or (3D
first call, lines 83-97) the parsed JSON body. -/
inductive FetchResult where
  | response (r : Response)
  | jsonBody (j : Json)

/-- Network outcomes a single fetch call can consume: the settlement of a
refresh promise pending at entry, the first data response, the settlement of
the retry refresh, and the retried data response. -/
structure FetchOracle where
  pendingAuth : Except Unit Json
  resp1 : Response
  retryAuth : Except Unit Json
  resp2 : Response

/-- Network requests observable during one fetch call. -/
inductive FEv where
  | dataRequest (u : SUrl)
  | authRequest
deriving DecidableEq

/-- Session-token application (the if (this.sessionToken) branches of fetch,
lines 41-45 and 61-65): the URL gains a session parameter only when a token
is held. -/
def applySession (s : AuthState) (g : SUrl) : SUrl :=
  match s.sessionToken with
  | some t => urlSetParam g (("session").toList) t.toList
  | none => g

/-- Proxy wrapping (lines 48-53 and 67-77): when a proxy URL is configured,
the real URL travels as the url query parameter of a request to the proxy. -/
def routeUrl (s : AuthState) (g : SUrl) : SUrl :=
  match s.proxyURL with
  | some p => urlSetParam p (("url").toList) (serializeUrl g)
  | none => g

/-- Tail of fetch (lines 83-101): in 3D mode with no session token held, the
parsed body is inspected for the token and the body itself is returned;
otherwise the response object is returned untouched. -/
def finishFetch (s : AuthState) (res : Response) (evs : List FEv) :
    AuthState × Except Unit FetchResult × List FEv :=
  if s.sessionToken = none ∧ isMapTilesSession s = false then
    ({ s with sessionToken := getSessionToken res.body }, .ok (.jsonBody res.body), evs)
  else (s, .ok (.response res), evs)

/-- Body of fetch after its first await (lines 39-101): build the google URL
with the key and session parameters, route it through the proxy when one is
configured, send; on a 4xx status with autoRefreshToken enabled, await one
refreshToken round (whose rejection rejects the whole call), re-apply the
session token when one is now held, rebuild the routed URL and resend once. -/
def fetchAfterAwait (s : AuthState) (url : SUrl) (o : FetchOracle) (evs : List FEv) :
    AuthState × Except Unit FetchResult × List FEv :=
  let googleUrl := applySession s (urlSetParam url (("key").toList) s.apiToken.toList)
  let fetchUrl := routeUrl s googleUrl
  let evs1 := evs ++ [FEv.dataRequest fetchUrl]
  if 400 ≤ o.resp1.status ∧ o.resp1.status ≤ 499 ∧ s.autoRefreshToken = true then
    let r := refreshTokenStart s
    let evs2 := evs1 ++ (if r.issuedRequest then [FEv.authRequest] else [])
    match o.retryAuth with
    | .error e => ((refreshSettle r.state (.error e)).1, .error e, evs2)
    | .ok j =>
      let s2 := (refreshSettle r.state (.ok j)).1
      let fetchUrl2 := routeUrl s2 (applySession s2 googleUrl)
      finishFetch s2 o.resp2 (evs2 ++ [FEv.dataRequest fetchUrl2])
  else
    finishFetch s o.resp1 evs1

/-- One full fetch call (lines 28-101): the synchronous prefix (eager
refresh in map-tiles mode without a token), the await on the pending refresh
promise (whose rejection rejects the whole call and leaves the marker in
place), then the request/retry body. -/
def fetchRun (s : AuthState) (url : SUrl) (o : FetchOracle) :
    AuthState × Except Unit FetchResult × List FEv :=
  let start := fetchStartPhase s
  let evs := if start.2 then [FEv.authRequest] else []
  match start.1.tokenRefreshPromise with
  | some _ =>
    match o.pendingAuth with
    | .error e => (start.1, .error e, evs)
    | .ok j => fetchAfterAwait (refreshSettle start.1 (.ok j)).1 url o evs
  | none => fetchAfterAwait start.1 url o evs

/-- URL of the first data request a fetch call sends. -/
def firstDataUrl (s : AuthState) (url : SUrl) : SUrl :=
  routeUrl s (applySession s (urlSetParam url (("key").toList) s.apiToken.toList))

/-- Client state right after the retry refresh succeeded with body j. -/
def retryState (s : AuthState) (j : Json) : AuthState :=
  (refreshSettle (refreshTokenStart s).state (.ok j)).1

/-- URL of the retried data request after the refresh succeeded with body j. -/
def retryDataUrl (s : AuthState) (url : SUrl) (j : Json) : SUrl :=
  routeUrl (retryState s j) (applySession (retryState s j)
    (applySession s (urlSetParam url (("key").toList) s.apiToken.toList)))

/-- Number of data requests sent during one fetch call. -/
def countDataRequests (evs : List FEv) : Nat :=
  evs.countP fun e =>
    match e with
    | .dataRequest _ => true
    | .authRequest => false

/-- The tail of fetch sends no further requests. -/
theorem finishFetch_trace (s : AuthState) (res : Response) (evs : List FEv) :
    (finishFetch s res evs).2.2 = evs := by
  unfold finishFetch; split <;> rfl

/-- Full reduction of a fetch call on the retry path: no pending refresh at
entry, no eager map-tiles refresh, first response 4xx, auto-refresh on, and
the retry refresh succeeds. -/
theorem fetchRun_retry_eq (s : AuthState) (url : SUrl) (o : FetchOracle) (j : Json)
    (hm : s.tokenRefreshPromise = none)
    (hnot : ¬(s.sessionToken = none ∧ isMapTilesSession s = true))
    (h4a : 400 ≤ o.resp1.status) (h4b : o.resp1.status ≤ 499)
    (hauto : s.autoRefreshToken = true) (hretry : o.retryAuth = .ok j) :
    fetchRun s url o =
      finishFetch (retryState s j) o.resp2
        [FEv.dataRequest (firstDataUrl s url), FEv.authRequest,
          FEv.dataRequest (retryDataUrl s url j)] := by
  have hstart : fetchStartPhase s = (s, false) := by
    unfold fetchStartPhase; rw [if_neg hnot]
  have hrt : refreshTokenStart s =
      ⟨{ s with
          tokenRefreshPromise := some s.nextPromiseId
          nextPromiseId := s.nextPromiseId + 1 }, s.nextPromiseId, true⟩ := by
    unfold refreshTokenStart; rw [hm]
  unfold fetchRun fetchAfterAwait
  simp only [hstart, hm, hrt, hretry, if_pos (And.intro h4a (And.intro h4b hauto))]
  simp [retryState, firstDataUrl, retryDataUrl, hrt]

/-- Full reduction of a fetch call that does not retry: no pending refresh
at entry, no eager map-tiles refresh, and no 4xx/auto-refresh condition. -/
theorem fetchRun_noretry_eq (s : AuthState) (url : SUrl) (o : FetchOracle)
    (hm : s.tokenRefreshPromise = none)
    (hnot : ¬(s.sessionToken = none ∧ isMapTilesSession s = true))
    (h4 : ¬(400 ≤ o.resp1.status ∧ o.resp1.status ≤ 499 ∧ s.autoRefreshToken = true)) :
    fetchRun s url o = finishFetch s o.resp1 [FEv.dataRequest (firstDataUrl s url)] := by
  have hstart : fetchStartPhase s = (s, false) := by
    unfold fetchStartPhase; rw [if_neg hnot]
  unfold fetchRun fetchAfterAwait
  simp only [hstart, hm, if_neg h4]
  simp [firstDataUrl]

/-- Counting data requests distributes over trace concatenation. -/
theorem countDataRequests_append (a b : List FEv) :
    countDataRequests (a ++ b) = countDataRequests a + countDataRequests b := by
  unfold countDataRequests
  exact List.countP_append _ _ _

/-- Counting data requests: the empty trace, one data request, one auth
request. -/
theorem countDataRequests_one_data (u : SUrl) : countDataRequests [FEv.dataRequest u] = 1 := by
  simp [countDataRequests, List.countP_cons]

/-- The body of fetch sends at most two data requests beyond the entry
trace. -/
theorem countDataRequests_fetchAfterAwait (s : AuthState) (url : SUrl) (o : FetchOracle)
    (evs : List FEv) :
    countDataRequests (fetchAfterAwait s url o evs).2.2 ≤ countDataRequests evs + 2 := by
  unfold fetchAfterAwait
  split
  · cases hr : o.retryAuth with
    | error e =>
      simp only [hr, countDataRequests_append, countDataRequests_one_data]
      have h0 : countDataRequests
          (if (refreshTokenStart s).issuedRequest then [FEv.authRequest] else []) = 0 := by
        cases (refreshTokenStart s).issuedRequest <;> decide
      omega
    | ok j =>
      rw [finishFetch_trace]
      simp only [hr, countDataRequests_append, countDataRequests_one_data]
      have h0 : countDataRequests
          (if (refreshTokenStart s).issuedRequest then [FEv.authRequest] else []) = 0 := by
        cases (refreshTokenStart s).issuedRequest <;> decide
      omega
  · rw [finishFetch_trace]
    simp only [countDataRequests_append, countDataRequests_one_data]
    omega

/-- C5: for a fetch call whose first data response has a 4xx status while
auto-refresh is enabled (and whose refresh round trip succeeds and yields a
token), exactly one refresh-and-retry is performed: the network trace is one
data request, one auth request and one retried data request; with no proxy
configured the retried URL is the first URL with the fresh session token
re-applied; the retried response is returned to the caller whatever its
status; and, unconditionally, a fetch call never sends more than two data
requests. -/
theorem fetch_single_retry_on_4xx :
    (∀ (s : AuthState) (url : SUrl) (o : FetchOracle) (j : Json) (t : String),
      s.tokenRefreshPromise = none →
      ¬(s.sessionToken = none ∧ isMapTilesSession s = true) →
      400 ≤ o.resp1.status → o.resp1.status ≤ 499 → s.autoRefreshToken = true →
      o.retryAuth = .ok j → getSessionToken j = some t →
      (fetchRun s url o).2.2 =
        [FEv.dataRequest (firstDataUrl s url), FEv.authRequest,
          FEv.dataRequest (retryDataUrl s url j)] ∧
      (s.proxyURL = none →
        retryDataUrl s url j =
          urlSetParam (firstDataUrl s url) (("session").toList) t.toList) ∧
      (fetchRun s url o).2.1 = .ok (.response o.resp2)) ∧
    (∀ (s : AuthState) (url : SUrl) (o : FetchOracle),
      countDataRequests (fetchRun s url o).2.2 ≤ 2) := by
  constructor
  · intro s url o j t hm hnot h4a h4b hauto hretry htok
    have hrun := fetchRun_retry_eq s url o j hm hnot h4a h4b hauto hretry
    have hs2 : (retryState s j).sessionToken = some t := by
      simp [retryState, refreshSettle, htok]
    refine ⟨?_, ?_, ?_⟩
    · rw [hrun, finishFetch_trace]
    · intro hproxy
      have hs2p : (retryState s j).proxyURL = none := by
        simp [retryState, refreshSettle, refreshTokenStart, hm, hproxy]
      unfold retryDataUrl firstDataUrl routeUrl applySession
      rw [hs2, hs2p, hproxy]
    · rw [hrun]
      unfold finishFetch
      rw [if_neg (by rw [hs2]; rintro ⟨hfalse, -⟩; exact Option.noConfusion hfalse)]
  · intro s url o
    unfold fetchRun
    have h0 : countDataRequests
        (if (fetchStartPhase s).2 then [FEv.authRequest] else []) = 0 := by
      cases (fetchStartPhase s).2 <;> decide
    cases hp : (fetchStartPhase s).1.tokenRefreshPromise with
    | none =>
      simp only [hp]
      have hb := countDataRequests_fetchAfterAwait (fetchStartPhase s).1 url o
        (if (fetchStartPhase s).2 then [FEv.authRequest] else [])
      omega
    | some p =>
      simp only [hp]
      cases hpa : o.pendingAuth with
      | error e => simp only [hpa]; omega
      | ok j =>
        simp only [hpa]
        have hb := countDataRequests_fetchAfterAwait
          (refreshSettle (fetchStartPhase s).1 (.ok j)).1 url o
          (if (fetchStartPhase s).2 then [FEv.authRequest] else [])
        omega

/-- C5 witness: a concrete map-tiles client holding a token, auto-refresh
on, first response 404, refresh succeeding with token t2, no proxy. -/
theorem fetch_single_retry_on_4xx_witness :
    (fetchRun
        { apiToken := ("k"), autoRefreshToken := true, authURL := TILES_MAP_URL,
          sessionToken := some ("old"), tokenRefreshPromise := none, proxyURL := none,
          nextPromiseId := 0 }
        { scheme := ("https").toList, host := ("h").toList, pathname := ("/a.json").toList,
          params := [] }
        { pendingAuth := .error (), resp1 := ⟨404, ⟨none, Tile.mk none []⟩⟩,
          retryAuth := .ok ⟨some ("t2"), Tile.mk none []⟩,
          resp2 := ⟨200, ⟨none, Tile.mk none []⟩⟩ }).2.2 =
      [FEv.dataRequest (firstDataUrl
          { apiToken := ("k"), autoRefreshToken := true, authURL := TILES_MAP_URL,
            sessionToken := some ("old"), tokenRefreshPromise := none, proxyURL := none,
            nextPromiseId := 0 }
          { scheme := ("https").toList, host := ("h").toList, pathname := ("/a.json").toList,
            params := [] }),
        FEv.authRequest,
        FEv.dataRequest (retryDataUrl
          { apiToken := ("k"), autoRefreshToken := true, authURL := TILES_MAP_URL,
            sessionToken := some ("old"), tokenRefreshPromise := none, proxyURL := none,
            nextPromiseId := 0 }
          { scheme := ("https").toList, host := ("h").toList, pathname := ("/a.json").toList,
            params := [] }
          ⟨some ("t2"), Tile.mk none []⟩)] ∧
    (({ apiToken := ("k"), autoRefreshToken := true, authURL := TILES_MAP_URL,
        sessionToken := some ("old"), tokenRefreshPromise := none, proxyURL := none,
        nextPromiseId := 0 } : AuthState).proxyURL = none →
      retryDataUrl
          { apiToken := ("k"), autoRefreshToken := true, authURL := TILES_MAP_URL,
            sessionToken := some ("old"), tokenRefreshPromise := none, proxyURL := none,
            nextPromiseId := 0 }
          { scheme := ("https").toList, host := ("h").toList, pathname := ("/a.json").toList,
            params := [] }
          ⟨some ("t2"), Tile.mk none []⟩ =
        urlSetParam
          (firstDataUrl
            { apiToken := ("k"), autoRefreshToken := true, authURL := TILES_MAP_URL,
              sessionToken := some ("old"), tokenRefreshPromise := none, proxyURL := none,
              nextPromiseId := 0 }
            { scheme := ("https").toList, host := ("h").toList, pathname := ("/a.json").toList,
              params := [] })
          (("session").toList) (("t2").toList)) ∧
    (fetchRun
        { apiToken := ("k"), autoRefreshToken := true, authURL := TILES_MAP_URL,
          sessionToken := some ("old"), tokenRefreshPromise := none, proxyURL := none,
          nextPromiseId := 0 }
        { scheme := ("https").toList, host := ("h").toList, pathname := ("/a.json").toList,
          params := [] }
        { pendingAuth := .error (), resp1 := ⟨404, ⟨none, Tile.mk none []⟩⟩,
          retryAuth := .ok ⟨some ("t2"), Tile.mk none []⟩,
          resp2 := ⟨200, ⟨none, Tile.mk none []⟩⟩ }).2.1 =
      .ok (.response ⟨200, ⟨none, Tile.mk none []⟩⟩) :=
  fetch_single_retry_on_4xx.1 _ _ _ ⟨some ("t2"), Tile.mk none []⟩ ("t2")
    rfl (by decide) (by decide) (by decide) rfl rfl rfl

/-- C10: in 3D mode (non-map-tiles auth endpoint) with no session token
established, a fetch whose first response is successful inspects the parsed
body, stores the extracted token, and returns the body to the caller; once a
token is established, a fetch with a successful response skips the
inspection, returns the response object and leaves the token unchanged. -/
theorem first_success_inspected_for_token :
    (∀ (s : AuthState) (url : SUrl) (o : FetchOracle),
      s.sessionToken = none → isMapTilesSession s = false →
      s.tokenRefreshPromise = none → o.resp1.status < 400 →
      (fetchRun s url o).2.1 = .ok (.jsonBody o.resp1.body) ∧
      (fetchRun s url o).1.sessionToken = getSessionToken o.resp1.body ∧
      (fetchRun s url o).2.2 = [FEv.dataRequest (firstDataUrl s url)]) ∧
    (∀ (s : AuthState) (url : SUrl) (o : FetchOracle) (t : String),
      s.sessionToken = some t → isMapTilesSession s = false →
      s.tokenRefreshPromise = none →
      ¬(400 ≤ o.resp1.status ∧ o.resp1.status ≤ 499) →
      (fetchRun s url o).2.1 = .ok (.response o.resp1) ∧
      (fetchRun s url o).1.sessionToken = some t ∧
      (fetchRun s url o).2.2 = [FEv.dataRequest (firstDataUrl s url)]) := by
  constructor
  · intro s url o htok hmode hm hst
    have hnot : ¬(s.sessionToken = none ∧ isMapTilesSession s = true) := by
      rintro ⟨-, hcon⟩; rw [hmode] at hcon; exact Bool.false_ne_true hcon
    have h4 : ¬(400 ≤ o.resp1.status ∧ o.resp1.status ≤ 499 ∧ s.autoRefreshToken = true) := by
      rintro ⟨hcon, -⟩; omega
    rw [fetchRun_noretry_eq s url o hm hnot h4]
    unfold finishFetch
    rw [if_pos ⟨htok, hmode⟩]
    exact ⟨rfl, rfl, rfl⟩
  · intro s url o t htok hmode hm h4
    have hnot : ¬(s.sessionToken = none ∧ isMapTilesSession s = true) := by
      rintro ⟨hcon, -⟩; rw [htok] at hcon; exact Option.noConfusion hcon
    have h4' : ¬(400 ≤ o.resp1.status ∧ o.resp1.status ≤ 499 ∧ s.autoRefreshToken = true) :=
      fun hc => h4 ⟨hc.1, hc.2.1⟩
    rw [fetchRun_noretry_eq s url o hm hnot h4']
    unfold finishFetch
    rw [if_neg (by rw [htok]; rintro ⟨hfalse, -⟩; exact Option.noConfusion hfalse)]
    exact ⟨rfl, htok, rfl⟩

/-- C10 witness: a concrete 3D-mode client with no token whose first
response is a 200 manifest carrying a session parameter, and the same client
after the token is established. -/
theorem first_success_inspected_for_token_witness :
    ((fetchRun
        { apiToken := ("k"), autoRefreshToken := false, authURL := ("https://3d.example/root"),
          sessionToken := none, tokenRefreshPromise := none, proxyURL := none,
          nextPromiseId := 0 }
        { scheme := ("https").toList, host := ("h").toList, pathname := ("/root.json").toList,
          params := [] }
        { pendingAuth := .error (),
          resp1 := ⟨200, ⟨none, Tile.mk (some ("m.glb?session=s1")) []⟩⟩,
          retryAuth := .error (), resp2 := ⟨0, ⟨none, Tile.mk none []⟩⟩ }).2.1 =
      .ok (.jsonBody ⟨none, Tile.mk (some ("m.glb?session=s1")) []⟩) ∧
    (fetchRun
        { apiToken := ("k"), autoRefreshToken := false, authURL := ("https://3d.example/root"),
          sessionToken := none, tokenRefreshPromise := none, proxyURL := none,
          nextPromiseId := 0 }
        { scheme := ("https").toList, host := ("h").toList, pathname := ("/root.json").toList,
          params := [] }
        { pendingAuth := .error (),
          resp1 := ⟨200, ⟨none, Tile.mk (some ("m.glb?session=s1")) []⟩⟩,
          retryAuth := .error (), resp2 := ⟨0, ⟨none, Tile.mk none []⟩⟩ }).1.sessionToken =
      getSessionToken ⟨none, Tile.mk (some ("m.glb?session=s1")) []⟩ ∧
    (fetchRun
        { apiToken := ("k"), autoRefreshToken := false, authURL := ("https://3d.example/root"),
          sessionToken := none, tokenRefreshPromise := none, proxyURL := none,
          nextPromiseId := 0 }
        { scheme := ("https").toList, host := ("h").toList, pathname := ("/root.json").toList,
          params := [] }
        { pendingAuth := .error (),
          resp1 := ⟨200, ⟨none, Tile.mk (some ("m.glb?session=s1")) []⟩⟩,
          retryAuth := .error (), resp2 := ⟨0, ⟨none, Tile.mk none []⟩⟩ }).2.2 =
      [FEv.dataRequest (firstDataUrl
          { apiToken := ("k"), autoRefreshToken := false, authURL := ("https://3d.example/root"),
            sessionToken := none, tokenRefreshPromise := none, proxyURL := none,
            nextPromiseId := 0 }
          { scheme := ("https").toList, host := ("h").toList, pathname := ("/root.json").toList,
            params := [] })]) ∧
    (fetchRun
        { apiToken := ("k"), autoRefreshToken := false, authURL := ("https://3d.example/root"),
          sessionToken := some ("s1"), tokenRefreshPromise := none, proxyURL := none,
          nextPromiseId := 0 }
        { scheme := ("https").toList, host := ("h").toList, pathname := ("/t.glb").toList,
          params := [] }
        { pendingAuth := .error (), resp1 := ⟨200, ⟨none, Tile.mk none []⟩⟩,
          retryAuth := .error (), resp2 := ⟨0, ⟨none, Tile.mk none []⟩⟩ }).2.1 =
      .ok (.response ⟨200, ⟨none, Tile.mk none []⟩⟩) :=
  ⟨first_success_inspected_for_token.1 _ _ _ rfl (by decide) rfl (by decide),
    (first_success_inspected_for_token.2 _ _ _ ("s1") rfl (by decide) rfl (by decide)).1⟩

/-! Cache-miss streaming machine (server.js lines 151-193).  The upstream
response is a sequence of events; each event handler runs as one atomic
event-loop step.  A client disconnect is an event too: the source installs
no handler for it, so it only marks the client as gone. -/

/-- Upstream / connection events seen by the miss handler. -/
inductive UpEvent where
  | data (chunk : LC)
  | upEnd
  | upError
  | clientDisconnect
deriving DecidableEq

/-- Observable file and response actions the handlers perform, in order. -/
inductive Action where
  | writeTmp (chunk : LC)
  | writeClient (chunk : LC)
  | renameTmp
  | endClient
  | destroyTmp
  | destroyClient
deriving DecidableEq

/-- State of one cache-miss stream: bytes written to the temporary file, the
content visible under the final cache name (none while only the temporary
file exists), bytes written to the client response, whether the client is
still connected, and whether the upstream stream has terminated. -/
structure MissState where
  tmpContent : LC
  cacheContent : Option LC
  clientContent : LC
  clientConnected : Bool
  upstreamDone : Bool
deriving DecidableEq

/-- Initial miss state: empty temporary file, no visible cache entry. -/
def initMiss : MissState := ⟨[], none, [], true, false⟩

/-- One event of the miss handler, translated from the data/end/error
handlers of server.js lines 162-193; hasFile says whether a cache path was
computed (fileStream non-null).  A data chunk is written to the temporary
file first and to the client second; upstream end flushes the file and only
then renames it onto the final cache path; upstream error destroys the
temporary file and never renames; a client disconnect has no handler in the
source, so it only marks the client gone. -/
def missStep (hasFile : Bool) (s : MissState) : UpEvent → MissState × List Action
  | .data c =>
    if s.upstreamDone then (s, [])
    else
      ({ s with
          tmpContent := if hasFile then s.tmpContent ++ c else s.tmpContent
          clientContent := s.clientContent ++ c },
        (if hasFile then [Action.writeTmp c] else []) ++ [Action.writeClient c])
  | .upEnd =>
    if s.upstreamDone then (s, [])
    else
      ({ s with
          upstreamDone := true
          cacheContent := if hasFile then some s.tmpContent else s.cacheContent },
        (if hasFile then [Action.renameTmp] else []) ++ [Action.endClient])
  | .upError =>
    if s.upstreamDone then (s, [])
    else
      ({ s with
          upstreamDone := true
          clientConnected := false },
        (if hasFile then [Action.destroyTmp] else []) ++ [Action.destroyClient])
  | .clientDisconnect => ({ s with clientConnected := false }, [])

/-- Run the miss handler over an upstream event sequence, collecting the
action trace. -/
def runMiss (hasFile : Bool) : MissState → List UpEvent → MissState × List Action
  | s, [] => (s, [])
  | s, e :: evs =>
    let r := missStep hasFile s e
    let rest := runMiss hasFile r.1 evs
    (rest.1, r.2 ++ rest.2)

/-- Concatenation of the data chunks arriving before the stream terminates. -/
def payloadBefore : List UpEvent → LC
  | [] => []
  | .data c :: evs => c ++ payloadBefore evs
  | .upEnd :: _ => []
  | .upError :: _ => []
  | .clientDisconnect :: evs => payloadBefore evs

/-- Whether the stream terminates with a clean upstream end (rather than
never terminating or erroring first). -/
def endsCleanly : List UpEvent → Bool
  | [] => false
  | .data _ :: evs => endsCleanly evs
  | .upEnd :: _ => true
  | .upError :: _ => false
  | .clientDisconnect :: evs => endsCleanly evs

/-- After the upstream stream has terminated, the visible cache entry never
changes again. -/
theorem runMiss_done_cache (hf : Bool) : ∀ (evs : List UpEvent) (s : MissState),
    s.upstreamDone = true → (runMiss hf s evs).1.cacheContent = s.cacheContent := by
  intro evs
  induction evs with
  | nil => intro s _; rfl
  | cons e evs ih =>
    intro s h
    cases e with
    | data c => simp only [runMiss, missStep, h, if_true]; exact ih s h
    | upEnd => simp only [runMiss, missStep, h, if_true]; exact ih s h
    | upError => simp only [runMiss, missStep, h, if_true]; exact ih s h
    | clientDisconnect =>
      simp only [runMiss, missStep]
      exact ih _ h

/-- The visible cache entry after a cache-miss stream: present exactly when
the upstream ended cleanly, and then it holds the temporary-file content,
namely everything written so far plus the full remaining payload. -/
theorem runMiss_cacheContent : ∀ (evs : List UpEvent) (s : MissState),
    s.upstreamDone = false → s.cacheContent = none →
    (runMiss true s evs).1.cacheContent =
      (if endsCleanly evs then some (s.tmpContent ++ payloadBefore evs) else none) := by
  intro evs
  induction evs with
  | nil => intro s hd hc; simp [runMiss, endsCleanly, hc]
  | cons e evs ih =>
    intro s hd hc
    cases e with
    | data c =>
      simp only [runMiss, missStep, hd, Bool.false_eq_true, if_false]
      refine (ih ⟨s.tmpContent ++ c, s.cacheContent, s.clientContent ++ c,
        s.clientConnected, false⟩ rfl hc).trans ?_
      simp [endsCleanly, payloadBefore, List.append_assoc]
    | upEnd =>
      simp only [runMiss, missStep, hd, Bool.false_eq_true, if_false]
      rw [runMiss_done_cache true evs _ rfl]
      simp [endsCleanly, payloadBefore]
    | upError =>
      simp only [runMiss, missStep, hd, Bool.false_eq_true, if_false]
      rw [runMiss_done_cache true evs _ rfl]
      simp [endsCleanly, hc]
    | clientDisconnect =>
      simp only [runMiss, missStep]
      refine (ih ⟨s.tmpContent, s.cacheContent, s.clientContent,
        false, s.upstreamDone⟩ hd hc).trans ?_
      simp [endsCleanly, payloadBefore]

/-- Every client write in the trace is immediately preceded by the matching
temporary-file write. -/
def tmpWriteFirst (tr : List Action) : Prop :=
  ∀ (i : Nat) (c : LC), tr[i]? = some (Action.writeClient c) →
    1 ≤ i ∧ tr[i-1]? = some (Action.writeTmp c)

/-- Prepending one handler block preserves the write ordering. -/
theorem tmpWriteFirst_append_block (b tr : List Action)
    (hb : b = [] ∨ (∃ c, b = [Action.writeTmp c, Action.writeClient c]) ∨
      b = [Action.renameTmp, Action.endClient] ∨
      b = [Action.destroyTmp, Action.destroyClient])
    (h : tmpWriteFirst tr) : tmpWriteFirst (b ++ tr) := by
  rcases hb with hb | ⟨c, hb⟩ | hb | hb
  · simpa [hb] using h
  all_goals subst hb
  · intro i c' hi
    match i, hi with
    | 0, hi => exact absurd hi (by simp)
    | 1, hi =>
      simp only [List.cons_append, List.getElem?_cons_succ, List.getElem?_cons_zero,
        Option.some.injEq, Action.writeClient.injEq] at hi
      subst hi
      exact ⟨le_refl 1, by simp⟩
    | (n + 2), hi =>
      simp only [List.cons_append, List.getElem?_cons_succ] at hi
      obtain ⟨h1, h2⟩ := h n c' hi
      obtain ⟨m, rfl⟩ : ∃ m, n = m + 1 := ⟨n - 1, by omega⟩
      refine ⟨by omega, ?_⟩
      simpa using h2
  all_goals
    intro i c' hi
    match i, hi with
    | 0, hi => exact absurd hi (by simp)
    | 1, hi => exact absurd hi (by simp)
    | (n + 2), hi =>
      simp only [List.cons_append, List.getElem?_cons_succ] at hi
      obtain ⟨h1, h2⟩ := h n c' hi
      obtain ⟨m, rfl⟩ : ∃ m, n = m + 1 := ⟨n - 1, by omega⟩
      exact ⟨by omega, by simpa using h2⟩

/-- The whole trace of a cacheable miss keeps the write ordering. -/
theorem runMiss_tmpWriteFirst : ∀ (evs : List UpEvent) (s : MissState),
    tmpWriteFirst (runMiss true s evs).2 := by
  intro evs
  induction evs with
  | nil => intro s i c hi; exact absurd hi (by simp [runMiss])
  | cons e evs ih =>
    intro s
    have hblock : (missStep true s e).2 = [] ∨
        (∃ c, (missStep true s e).2 = [Action.writeTmp c, Action.writeClient c]) ∨
        (missStep true s e).2 = [Action.renameTmp, Action.endClient] ∨
        (missStep true s e).2 = [Action.destroyTmp, Action.destroyClient] := by
      cases e with
      | data c =>
        by_cases hd : s.upstreamDone = true
        · left; simp [missStep, hd]
        · right; left; exact ⟨c, by simp [missStep, hd]⟩
      | upEnd =>
        by_cases hd : s.upstreamDone = true
        · left; simp [missStep, hd]
        · right; right; left; simp [missStep, hd]
      | upError =>
        by_cases hd : s.upstreamDone = true
        · left; simp [missStep, hd]
        · right; right; right; simp [missStep, hd]
      | clientDisconnect => left; simp [missStep]
    show tmpWriteFirst ((missStep true s e).2 ++ (runMiss true (missStep true s e).1 evs).2)
    exact tmpWriteFirst_append_block _ _ hblock (ih _)

/-- C3: on a cacheable cache miss, every upstream chunk is written to the
temporary file immediately before it is written to the client response, and
a cache entry is visible under its final name only if the upstream stream
ended cleanly, in which case it holds exactly the full upstream payload;
client disconnect events anywhere in the stream change neither fact, so no
reader ever observes a partial cache entry under its final name. -/
theorem miss_stream_cache_atomicity :
    (∀ (evs : List UpEvent) (i : Nat) (c : LC),
      ((runMiss true initMiss evs).2)[i]? = some (Action.writeClient c) →
      1 ≤ i ∧ ((runMiss true initMiss evs).2)[i - 1]? = some (Action.writeTmp c)) ∧
    (∀ (evs : List UpEvent) (content : LC),
      (runMiss true initMiss evs).1.cacheContent = some content →
      endsCleanly evs = true ∧ content = payloadBefore evs) := by
  constructor
  · exact fun evs => runMiss_tmpWriteFirst evs initMiss
  · intro evs content h
    rw [runMiss_cacheContent evs initMiss rfl rfl] at h
    by_cases he : endsCleanly evs = true
    · rw [if_pos he] at h
      simp only [List.nil_append, Option.some.injEq] at h
      exact ⟨he, h.symm⟩
    · rw [if_neg he] at h
      exact absurd h (by simp)

/-- C3 witness: a stream with two chunks and a client disconnect in the
middle; the second action is the client write of the first chunk, preceded
by its temporary-file write, and the visible cache entry is the full
payload. -/
theorem miss_stream_cache_atomicity_witness :
    (1 ≤ 1 ∧
      ((runMiss true initMiss
          [UpEvent.data (("ab").toList), UpEvent.clientDisconnect,
            UpEvent.data (("cd").toList), UpEvent.upEnd]).2)[1 - 1]? =
        some (Action.writeTmp (("ab").toList))) ∧
    (endsCleanly
        [UpEvent.data (("ab").toList), UpEvent.clientDisconnect,
          UpEvent.data (("cd").toList), UpEvent.upEnd] = true ∧
      ("abcd").toList = payloadBefore
        [UpEvent.data (("ab").toList), UpEvent.clientDisconnect,
          UpEvent.data (("cd").toList), UpEvent.upEnd]) :=
  ⟨miss_stream_cache_atomicity.1
      [UpEvent.data (("ab").toList), UpEvent.clientDisconnect,
        UpEvent.data (("cd").toList), UpEvent.upEnd] 1 (("ab").toList) (by decide),
    miss_stream_cache_atomicity.2
      [UpEvent.data (("ab").toList), UpEvent.clientDisconnect,
        UpEvent.data (("cd").toList), UpEvent.upEnd] (("abcd").toList) (by decide)⟩

/-! Proxy request handler (server.js lines 44-218). -/

/-- The url query parameter of a proxy request: absent, present but not
parsable by the URL constructor, or parsed. -/
inductive UrlParamField where
  | missing
  | invalid
  | valid (u : SUrl)

/-- An inbound proxy request. -/
structure ProxyReq where
  isOptions : Bool
  pathname : LC
  urlParam : UrlParamField

/-- On-disk cache store: association of cache paths to file contents, most
recent rename first (fs.rename overwrites). -/
abbrev Store := List (LC × LC)

/-- Upstream behaviour for one request: the response status and the event
stream. -/
structure Upstream where
  status : Nat
  events : List UpEvent

/-- Outcome of one proxy request. -/
inductive Outcome where
  | preflight
  | notFound
  | missingUrl
  | crashed
  | hit (jsonContentType : Bool) (body : LC)
  | upstreamResp (status : Nat) (final : MissState) (trace : List Action)
deriving DecidableEq

/-- Translation of the request handler (server.js lines 44-218): OPTIONS
preflight (200); 404 off the /proxy route; 400 for a missing url parameter.
A present but unparsable url parameter is fatal: new URL(googleUrl) at line
75 runs outside the try block of lines 134-217, so the thrown TypeError
rejects the async handler's promise, the request is never answered and the
process is left to the default unhandled-rejection behaviour (crashed).
Otherwise the cache path is computed (lines 79-100); a cache hit streams the
file with the X-Cache HIT header and, for manifests, a JSON content type,
and never touches the upstream; a cache miss contacts the upstream (the
returned flag records the upstream call), streams through the miss machine
and publishes the renamed temporary file in the store; a non-cacheable
target does the same without a file. -/
def handleRequest (digest : LC → LC) (store : Store) (req : ProxyReq)
    (up : Upstream) : Outcome × Store × Bool :=
  if req.isOptions then (.preflight, store, false)
  else if ¬(req.pathname = ("/proxy").toList) then (.notFound, store, false)
  else
    match req.urlParam with
    | .missing => (.missingUrl, store, false)
    | .invalid => (.crashed, store, false)
    | .valid u =>
      match cachePathForTarget digest u with
      | some p =>
        match assocLookup store p with
        | some body =>
          (.hit (List.isSuffixOf ((".json").toList) u.pathname) body, store, false)
        | none =>
          let r := runMiss true initMiss up.events
          let newStore :=
            match r.1.cacheContent with
            | some content => (p, content) :: store
            | none => store
          (.upstreamResp up.status r.1 r.2, newStore, true)
      | none =>
        let r := runMiss false initMiss up.events
        (.upstreamResp up.status r.1 r.2, store, true)

/-- C8 (code evaluation at the failing input): a missing url parameter gets
the 400 response and a non-proxy path the 404, but a present, unparsable
url parameter crashes the handler unanswered instead of returning 400,
because the URL constructor throws before the try/catch is entered. -/
theorem proxy_unparsable_url_crashes :
    (handleRequest (fun l => l) []
        ⟨false, ("/proxy").toList, .missing⟩ ⟨200, []⟩).1 = .missingUrl ∧
    (handleRequest (fun l => l) []
        ⟨false, ("/other").toList, .missing⟩ ⟨200, []⟩).1 = .notFound ∧
    (handleRequest (fun l => l) []
        ⟨false, ("/proxy").toList, .invalid⟩ ⟨200, []⟩).1 = .crashed := by
  decide

/-- A list ending in .json does not end in .glb (their last characters
differ), so the two cache branches of the handler are mutually exclusive. -/
theorem json_suffix_not_glb (l : LC)
    (h : List.isSuffixOf ((".json").toList) l = true) :
    List.isSuffixOf ((".glb").toList) l = false := by
  by_contra hg
  rw [Bool.not_eq_false] at hg
  obtain ⟨t1, rfl⟩ : (".json").toList <:+ l := by
    exact (List.isSuffixOf_iff_suffix).1 h
  obtain ⟨t2, he⟩ : (".glb").toList <:+ t1 ++ (".json").toList := by
    exact (List.isSuffixOf_iff_suffix).1 hg
  have h1 : (t1 ++ (".json").toList).getLast? = some 'n' := by
    rw [List.getLast?_append]; rfl
  have h2 : (t1 ++ (".json").toList).getLast? = some 'b' := by
    rw [← he, List.getLast?_append]; rfl
  rw [h1] at h2
  exact absurd h2 (by decide)

/-- C9: the first proxy request for a cacheable manifest URL with no cache
entry present contacts the upstream, forwards its 200 status, and creates a
cache entry under the path digest of the string json: ++ normalizedURL
holding the full upstream payload; a second identical request is answered
from the store as a hit with the JSON content type, with the same store and
no upstream call. -/
theorem manifest_cache_roundtrip (digest : LC → LC) (store : Store) (u : SUrl)
    (up up2 : Upstream)
    (hjson : List.isSuffixOf ((".json").toList) u.pathname = true)
    (hmiss : assocLookup store (urlToCachePath digest (jsonCacheKey u)) = none)
    (hclean : endsCleanly up.events = true)
    (hstatus : up.status = 200) :
    (handleRequest digest store ⟨false, ("/proxy").toList, .valid u⟩ up).2.2 = true ∧
    (handleRequest digest store ⟨false, ("/proxy").toList, .valid u⟩ up).1 =
      .upstreamResp 200 (runMiss true initMiss up.events).1
        (runMiss true initMiss up.events).2 ∧
    assocLookup
        (handleRequest digest store ⟨false, ("/proxy").toList, .valid u⟩ up).2.1
        (urlToCachePath digest (jsonCacheKey u)) = some (payloadBefore up.events) ∧
    handleRequest digest
        (handleRequest digest store ⟨false, ("/proxy").toList, .valid u⟩ up).2.1
        ⟨false, ("/proxy").toList, .valid u⟩ up2 =
      (.hit true (payloadBefore up.events),
        (handleRequest digest store ⟨false, ("/proxy").toList, .valid u⟩ up).2.1,
        false) := by
  have hglb := json_suffix_not_glb u.pathname hjson
  have hcp : cachePathForTarget digest u =
      some (urlToCachePath digest (jsonCacheKey u)) := by
    unfold cachePathForTarget
    rw [if_neg (by rw [hglb]; exact Bool.false_ne_true), if_pos hjson]
  have hcache : (runMiss true initMiss up.events).1.cacheContent =
      some (payloadBefore up.events) := by
    rw [runMiss_cacheContent up.events initMiss rfl rfl, if_pos hclean]
    rfl
  have h1 : handleRequest digest store ⟨false, ("/proxy").toList, .valid u⟩ up =
      (.upstreamResp up.status (runMiss true initMiss up.events).1
          (runMiss true initMiss up.events).2,
        (urlToCachePath digest (jsonCacheKey u), payloadBefore up.events) :: store,
        true) := by
    unfold handleRequest
    simp only [hcp, hmiss, hcache]
    rfl
  rw [h1, hstatus]
  refine ⟨rfl, rfl, by simp [assocLookup], ?_⟩
  unfold handleRequest
  simp only [hcp]
  have h2 : assocLookup
      ((urlToCachePath digest (jsonCacheKey u), payloadBefore up.events) :: store)
      (urlToCachePath digest (jsonCacheKey u)) = some (payloadBefore up.events) := by
    simp [assocLookup]
  simp only [h2, hjson]
  rfl

/-- C9 witness: the scenario of the spec, with the identity digest: first
request for the manifest root.json on an empty cache, a two-chunk upstream
body, then the identical second request. -/
theorem manifest_cache_roundtrip_witness :
    (handleRequest (fun l => l) []
        ⟨false, ("/proxy").toList,
          .valid ⟨("https").toList, ("tiles.example").toList, ("/root.json").toList, []⟩⟩
        ⟨200, [UpEvent.data (("td").toList), UpEvent.upEnd]⟩).2.2 = true ∧
    (handleRequest (fun l => l) []
        ⟨false, ("/proxy").toList,
          .valid ⟨("https").toList, ("tiles.example").toList, ("/root.json").toList, []⟩⟩
        ⟨200, [UpEvent.data (("td").toList), UpEvent.upEnd]⟩).1 =
      .upstreamResp 200
        (runMiss true initMiss [UpEvent.data (("td").toList), UpEvent.upEnd]).1
        (runMiss true initMiss [UpEvent.data (("td").toList), UpEvent.upEnd]).2 ∧
    assocLookup
        (handleRequest (fun l => l) []
          ⟨false, ("/proxy").toList,
            .valid ⟨("https").toList, ("tiles.example").toList, ("/root.json").toList, []⟩⟩
          ⟨200, [UpEvent.data (("td").toList), UpEvent.upEnd]⟩).2.1
        (urlToCachePath (fun l => l)
          (jsonCacheKey
            ⟨("https").toList, ("tiles.example").toList, ("/root.json").toList, []⟩)) =
      some (payloadBefore [UpEvent.data (("td").toList), UpEvent.upEnd]) ∧
    handleRequest (fun l => l)
        (handleRequest (fun l => l) []
          ⟨false, ("/proxy").toList,
            .valid ⟨("https").toList, ("tiles.example").toList, ("/root.json").toList, []⟩⟩
          ⟨200, [UpEvent.data (("td").toList), UpEvent.upEnd]⟩).2.1
        ⟨false, ("/proxy").toList,
          .valid ⟨("https").toList, ("tiles.example").toList, ("/root.json").toList, []⟩⟩
        ⟨200, []⟩ =
      (.hit true (payloadBefore [UpEvent.data (("td").toList), UpEvent.upEnd]),
        (handleRequest (fun l => l) []
          ⟨false, ("/proxy").toList,
            .valid ⟨("https").toList, ("tiles.example").toList, ("/root.json").toList, []⟩⟩
          ⟨200, [UpEvent.data (("td").toList), UpEvent.upEnd]⟩).2.1,
        false) :=
  manifest_cache_roundtrip (fun l => l) []
    ⟨("https").toList, ("tiles.example").toList, ("/root.json").toList, []⟩
    ⟨200, [UpEvent.data (("td").toList), UpEvent.upEnd]⟩ ⟨200, []⟩
    (by decide) rfl (by decide) rfl

end GoogleTiles
